import Mathlib

/-!
# Bluetooth device tracker: the client-side session state of `App.js`

A shallow embedding of `src/bluetooth-frontend/src/App.js`:

* the JavaScript values the component handles (`JSON`, property reads, truthiness,
  string conversion inside a template literal);
* the React state `devices` / `loading` / `error` and the asynchronous handlers
  `fetchDevices`, `handleScan`, `handlePair`, `handleDisconnect`, cut at every
  `await fetch(...)` into "issue the request" and "resume when it settles";
* the two pure projections of the state: `chartData` and the device list rows.

The model covers the component while it is mounted. A number is kept as the
exact decimal the backend wrote. Whether it is zero as a JavaScript number is
decided exactly; the text JavaScript prints for it is a parameter
(`numberToString`) of the functions that print one.
-/

namespace BluetoothTracker

/-! ## JavaScript values -/

/-- A value produced by `response.json()`. A number is kept as the decimal
`mant / 10 ^ scale` it was written as. -/
inductive JSON where
  | null
  | bool (b : Bool)
  | num (mant : Int) (scale : Nat)
  | str (s : String)
  | arr (items : List JSON)
  | obj (props : List (String × JSON))

/-- The exceptions a handler can meet: a rejected `fetch`, a body that
`response.json()` cannot parse, and a property read on `null` (or `.map` called
on something that is not an array). -/
inductive JSError where
  | networkError
  | syntaxError
  | typeError
  deriving DecidableEq, Repr

/-- Own property lookup in the property list of an object. When a key is
written twice the later one counts, as in `JSON.parse`. -/
def lookup (key : String) : List (String × JSON) → Option JSON
  | [] => none
  | (k, v) :: rest =>
    match lookup key rest with
    | some later => some later
    | none => if k = key then some v else none

/-- The expression `v.key` for one of the keys `App.js` reads (`devices`, `name`,
`mac`, `distance`, `connected`): it throws on `null`, is the own property of an
object, and is `undefined` (`none`) on every other value, none of which has such
a property. -/
def JSON.get (v : JSON) (key : String) : Except JSError (Option JSON) :=
  match v with
  | .null => .error .typeError
  | .obj props => .ok (lookup key props)
  | _ => .ok none

/-- Whether the decimal `mant / 10 ^ scale` is a non-zero JavaScript number.
`JSON.parse` rounds to the nearest double, ties to even, and the smallest
positive double is `2 ^ -1074`: a decimal becomes `0` exactly when its magnitude
is at most `2 ^ -1075`, that is when `|mant| * 2 ^ 1075 ≤ 10 ^ scale`; the product
is written as a shift. -/
def numNonZero (mant : Int) (scale : Nat) : Bool :=
  decide (10 ^ scale < mant.natAbs <<< 1075)

/-- JavaScript truthiness of a parsed value: `null`, `false`, `0` and `""` are
falsy, everything else (arrays and objects included) is truthy. -/
def JSON.truthy : JSON → Bool
  | .null => false
  | .bool b => b
  | .num mant scale => numNonZero mant scale
  | .str s => s != ""
  | .arr _ => true
  | .obj _ => true

/-- Truthiness of the result of a property read; `none` is `undefined`. -/
def truthy : Option JSON → Bool
  | none => false
  | some v => v.truthy

/-- The test `x !== null && x !== undefined`. -/
def isPresent : Option JSON → Bool
  | none => false
  | some .null => false
  | some _ => true

mutual
/-- String conversion of a value interpolated in a template literal, given the
text `numberToString` the engine prints for a number. An array prints its
elements joined by commas. An object prints as `[object Object]`, unless it has
an own `toString` property: a parsed value is never callable, so the conversion
finds no usable method and throws. -/
def JSON.toStr (numberToString : Int → Nat → String) : JSON → Except JSError String
  | .null => .ok "null"
  | .bool b => .ok (if b then "true" else "false")
  | .num mant scale => .ok (numberToString mant scale)
  | .str s => .ok s
  | .arr items => JSON.joinStr numberToString items
  | .obj props =>
    if (lookup "toString" props).isSome then .error .typeError else .ok "[object Object]"
/-- The helper `Array.prototype.join(",")`: a `null` element prints as nothing. -/
def JSON.joinStr (numberToString : Int → Nat → String) : List JSON → Except JSError String
  | [] => .ok ""
  | x :: rest =>
    match (match x with
      | .null => Except.ok ""
      | v => JSON.toStr numberToString v) with
    | .error e => .error e
    | .ok head =>
      match rest with
      | [] => .ok head
      | more =>
        match JSON.joinStr numberToString more with
        | .error e => .error e
        | .ok tail => .ok (head ++ "," ++ tail)
end

/-- String conversion of the result of a property read. -/
def toStr (numberToString : Int → Nat → String) : Option JSON → Except JSError String
  | none => .ok "undefined"
  | some v => v.toStr numberToString

/-- Drop the trailing zeros of a list of fractional digits. -/
def stripTrailingZeros (digits : List Char) : List Char :=
  (digits.reverse.dropWhile (fun c => c == '0')).reverse

/-- The fractional digits of `frac / 10 ^ scale`, left-padded to `scale` places. -/
def fracDigits (frac scale : Nat) : List Char :=
  let ds := (Nat.repr frac).toList
  List.replicate (scale - ds.length) '0' ++ ds

/-- The decimal `mant / 10 ^ scale` written in plain notation, without trailing
zeros: `12, 1` gives `1.2`. It is one possible `numberToString`, and is what
JavaScript prints when the decimal has at most 15 significant digits and a
magnitude from `1e-6` up to, not including, `1e21` (or is zero). -/
def plainDecimal (mant : Int) (scale : Nat) : String :=
  let a := mant.natAbs
  let whole := a / 10 ^ scale
  let frac := a % 10 ^ scale
  let sign := if mant < 0 then "-" else ""
  let tail := if frac = 0 then "" else "." ++ String.mk (stripTrailingZeros (fracDigits frac scale))
  sign ++ Nat.repr whole ++ tail

/-! ## React state and the outcome of a request -/

/-- The three `useState` cells of `App` (lines 19-21). `error` is `none` for
the JavaScript `null`. -/
structure State where
  devices : JSON
  loading : Bool
  error : Option String

/-- Initial values: `useState([])`, `useState(false)`, `useState(null)`. -/
def State.initial : State :=
  { devices := .arr [], loading := false, error := none }

/-- How an awaited `fetch` settles: the promise rejects, or it resolves to a
response with an HTTP status and a body; `body = none` when `response.json()`
rejects because the text is not JSON. -/
inductive Outcome where
  | rejected
  | resolved (status : Nat) (body : Option JSON)

/-- The expression `await fetch(...)` once settled; `status` is never read. -/
def Outcome.response : Outcome → Except JSError (Option JSON)
  | .rejected => .error .networkError
  | .resolved _ body => .ok body

/-- The expression `await response.json()`. -/
def json : Option JSON → Except JSError JSON
  | none => .error .syntaxError
  | some data => .ok data

/-- Lines 25-32, the `try` block of `fetchDevices` after the request was sent. -/
def fetchDevicesTry (o : Outcome) (s : State) : Except JSError State := do
  let response ← o.response
  let data ← json response
  let devices ← data.get "devices"
  match devices with
  | some list =>
    if list.truthy then
      pure { s with devices := list, error := none }
    else
      pure { s with error := some "Failed to fetch devices" }
  | none => pure { s with error := some "Failed to fetch devices" }

/-- Lines 24-35: `fetchDevices` from the moment its request settles, with the
`catch` branch. -/
def fetchDevicesSettled (o : Outcome) (s : State) : State :=
  match fetchDevicesTry o s with
  | .ok s1 => s1
  | .error _ => { s with error := some "Backend unreachable" }

/-- Lines 47-58, the `try` block of `handleScan` after the request was sent. -/
def handleScanTry (o : Outcome) (s : State) : Except JSError State := do
  let res ← o.response
  let data ← json res
  let devices ← data.get "devices"
  match devices with
  | some list =>
    if list.truthy then
      pure { s with devices := list, error := none }
    else
      pure { s with error := some "Scan failed" }
  | none => pure { s with error := some "Scan failed" }

/-- Lines 46-62: `handleScan` from the moment its request settles: the `try`,
the `catch`, then `setLoading(false)`. -/
def handleScanSettled (o : Outcome) (s : State) : State :=
  let s1 :=
    match handleScanTry o s with
    | .ok s1 => s1
    | .error _ => { s with error := some "Scan failed" }
  { s1 with loading := false }

/-! ## Requests and the handlers, cut at each `await fetch(...)` -/

/-- HTTP method of a request. -/
inductive Method where
  | GET
  | POST
  deriving DecidableEq, Repr

/-- One call of `fetch`: method, URL and the object given to `JSON.stringify`
(`none` when the call has no body). A property value `none` is `undefined`. -/
structure Request where
  method : Method
  url : String
  body : Option (List (String × Option JSON))

/-- Line 25: `fetch("http://localhost:5000/api/devices")`. -/
def devicesRequest : Request :=
  { method := .GET, url := "http://localhost:5000/api/devices", body := none }

/-- Lines 47-51: the scan request, `{ duration: 10 }`. -/
def scanRequest : Request :=
  { method := .POST, url := "http://localhost:5000/api/scan",
    body := some [("duration", some (.num 10 0))] }

/-- Lines 66-70: the pair request, `{ mac }`. -/
def pairRequest (mac : Option JSON) : Request :=
  { method := .POST, url := "http://localhost:5000/api/pair", body := some [("mac", mac)] }

/-- Lines 71-75: the connect request, `{ mac }`. -/
def connectRequest (mac : Option JSON) : Request :=
  { method := .POST, url := "http://localhost:5000/api/connect", body := some [("mac", mac)] }

/-- Lines 80-84: the disconnect request, `{ mac }`. -/
def disconnectRequest (mac : Option JSON) : Request :=
  { method := .POST, url := "http://localhost:5000/api/disconnect", body := some [("mac", mac)] }

/-- The point at which a suspended handler waits: which `await fetch(...)` it
is parked on, with the variables it still needs. -/
inductive Cont where
  | fetchDevices
  | handleScan
  | handlePairPair (mac : Option JSON)
  | handlePairConnect (mac : Option JSON)
  | handleDisconnect (mac : Option JSON)

/-- The component together with its environment: the React state, the handlers
suspended on a request that has not settled yet (oldest first), and every
request sent so far (oldest first). -/
structure Sys where
  state : State
  inflight : List Cont
  log : List Request

/-- The freshly mounted component: nothing sent, nothing pending. -/
def Sys.initial : Sys :=
  { state := State.initial, inflight := [], log := [] }

/-- Send a request and park the handler on it. -/
def issue (r : Request) (k : Cont) (s : Sys) : Sys :=
  { s with inflight := s.inflight ++ [k], log := s.log ++ [r] }

/-- Line 25: `fetchDevices` up to its first `await`. -/
def fetchDevices (s : Sys) : Sys :=
  issue devicesRequest .fetchDevices s

/-- Lines 45-47: `handleScan` up to its first `await`: `setLoading(true)`, then
the scan request. -/
def handleScan (s : Sys) : Sys :=
  issue scanRequest .handleScan { s with state := { s.state with loading := true } }

/-- Line 66: `handlePair(mac)` up to its first `await`. -/
def handlePair (mac : Option JSON) (s : Sys) : Sys :=
  issue (pairRequest mac) (.handlePairPair mac) s

/-- Line 80: `handleDisconnect(mac)` up to its first `await`. -/
def handleDisconnect (mac : Option JSON) (s : Sys) : Sys :=
  issue (disconnectRequest mac) (.handleDisconnect mac) s

/-- Resume a suspended handler with the outcome of its request. The three
action requests sit outside any `try`: a rejection ends the handler there, a
response of any status and body lets it go on (the response is never read). -/
def resume (k : Cont) (o : Outcome) (s : Sys) : Sys :=
  match k with
  | .fetchDevices => { s with state := fetchDevicesSettled o s.state }
  | .handleScan => { s with state := handleScanSettled o s.state }
  | .handlePairPair mac =>
    match o with
    | .rejected => s
    | .resolved _ _ => issue (connectRequest mac) (.handlePairConnect mac) s
  | .handlePairConnect _ =>
    match o with
    | .rejected => s
    | .resolved _ _ => fetchDevices s
  | .handleDisconnect _ =>
    match o with
    | .rejected => s
    | .resolved _ _ => fetchDevices s

/-- What can happen to the mounted component. -/
inductive Event where
  /-- the effect of lines 38-42 runs: `fetchDevices()` -/
  | mount
  /-- the 5000 ms interval fires: `fetchDevices()` -/
  | tick
  /-- a click on the Scan button, which is `disabled={loading}` (line 109) -/
  | clickScan
  /-- a direct call of `handleScan` -/
  | scan
  /-- a call `handlePair(mac)`, from the Pair button of a row -/
  | pair (mac : Option JSON)
  /-- a call `handleDisconnect(mac)`, from the Disconnect button of a row -/
  | disconnect (mac : Option JSON)
  /-- the request at position `i` of `inflight` settles with outcome `o` -/
  | settle (i : Nat) (o : Outcome)

/-- One event. Settling a position that holds no request changes nothing. -/
def step (s : Sys) : Event → Sys
  | .mount => fetchDevices s
  | .tick => fetchDevices s
  | .clickScan => if s.state.loading then s else handleScan s
  | .scan => handleScan s
  | .pair mac => handlePair mac s
  | .disconnect mac => handleDisconnect mac s
  | .settle i o =>
    match s.inflight[i]? with
    | none => s
    | some k => resume k o { s with inflight := s.inflight.eraseIdx i }

/-- A sequence of events, in the order they happen. -/
def run (s : Sys) : List Event → Sys
  | [] => s
  | e :: es => run (step s e) es

/-- The device list a settled response carries, when it carries one that the
handler applies: the body is an object whose `devices` property is truthy. -/
def Outcome.carried : Outcome → Option JSON
  | .resolved _ (some (.obj props)) => (lookup "devices" props).filter JSON.truthy
  | _ => none

/-- The poll or scan response an event completes, if it completes one. -/
def completed (s : Sys) : Event → List Outcome
  | .settle i o =>
    match s.inflight[i]? with
    | some .fetchDevices => [o]
    | some .handleScan => [o]
    | _ => []
  | _ => []

/-- The poll and scan responses of a run, in the order they complete. -/
def completions (s : Sys) : List Event → List Outcome
  | [] => []
  | e :: es => completed s e ++ completions (step s e) es

/-- The registry the spec prescribes after responses completed in this order:
the list of the last one that carried devices, the empty list when none did. -/
def lastApplied (os : List Outcome) : JSON :=
  ((os.filterMap Outcome.carried).getLast?).getD (.arr [])

/-! ## The views: chart data and device list -/

/-- The call `xs.map(f)` for a callback that may throw: the first exception
aborts the whole map. -/
def mapThrow {α β : Type} (f : α → Except JSError β) : List α → Except JSError (List β)
  | [] => .ok []
  | x :: xs =>
    match f x with
    | .error e => .error e
    | .ok y =>
      match mapThrow f xs with
      | .error e => .error e
      | .ok ys => .ok (y :: ys)

/-- The call `devices.map(f)`: a `TypeError` unless `devices` is an array. -/
def JSON.map {β : Type} (devices : JSON) (f : JSON → Except JSError β) :
    Except JSError (List β) :=
  match devices with
  | .arr items => mapThrow f items
  | _ => .error .typeError

/-- Line 89, the callback `d => d.name || d.mac`. -/
def chartLabel (d : JSON) : Except JSError (Option JSON) := do
  let name ← d.get "name"
  if truthy name then pure name else d.get "mac"

/-- Line 93, the callback
`d => d.distance !== null && d.distance !== undefined ? d.distance : 0`. -/
def chartValue (d : JSON) : Except JSError (Option JSON) := do
  let distance ← d.get "distance"
  if isPresent distance then pure distance else pure (some (.num 0 0))

/-- The single dataset of the chart (lines 91-98). -/
structure Dataset where
  label : String
  data : List (Option JSON)
  fill : Bool
  borderColor : String
  backgroundColor : String
  tension : JSON

/-- The object handed to `<Line data={chartData} />`. -/
structure ChartData where
  labels : List (Option JSON)
  datasets : List Dataset

/-- Lines 88-100: `chartData`, computed from the `devices` state. -/
def chartData (devices : JSON) : Except JSError ChartData := do
  let labels ← devices.map chartLabel
  let data ← devices.map chartValue
  pure
    { labels := labels,
      datasets :=
        [{ label := "Distance (m)", data := data, fill := false,
           borderColor := "#4bc0c0", backgroundColor := "#4bc0c0", tension := .num 1 1 }] }

/-- A rendered `<button>`: its class, its text and the call its `onClick` makes. -/
structure Button where
  className : String
  text : String
  onClick : Event

/-- One `<li className="device-item">` (lines 116-129): the child of each of
the three paragraphs and the buttons inside the second `<div>`. -/
structure Row where
  name : Option JSON
  mac : Option JSON
  distance : String
  buttons : List Button

/-- Line 120, the expression
`dev.distance !== null && dev.distance !== undefined ? \`${dev.distance} m\` : "?"`. -/
def distanceText (numberToString : Int → Nat → String) (distance : Option JSON) :
    Except JSError String := do
  if isPresent distance then
    let shown ← toStr numberToString distance
    pure (shown ++ " m")
  else
    pure "?"

/-- Lines 116-129, the callback of `devices.map` in the list. -/
def deviceRow (numberToString : Int → Nat → String) (dev : JSON) : Except JSError Row := do
  let name ← dev.get "name"
  let mac ← dev.get "mac"
  let distance ← dev.get "distance"
  let text ← distanceText numberToString distance
  let connected ← dev.get "connected"
  pure
    { name := if truthy name then name else some (.str "Unknown Device"),
      mac := mac,
      distance := "Distance: " ++ text,
      buttons :=
        if !truthy connected then
          [{ className := "btn", text := "Pair", onClick := .pair mac }]
        else
          [{ className := "btn disconnect", text := "Disconnect", onClick := .disconnect mac }] }

/-- Lines 115-130: the rows of the device list. -/
def deviceList (numberToString : Int → Nat → String) (devices : JSON) :
    Except JSError (List Row) :=
  devices.map (deviceRow numberToString)

/-! ## The device shape of the backend -/

/-- An optional property of a JSON object: missing, `null`, or a value. -/
inductive Field (α : Type) where
  | absent
  | null
  | present (a : α)

/-- The properties a field contributes to the object. -/
def Field.props {α : Type} (key : String) (enc : α → JSON) : Field α → List (String × JSON)
  | .absent => []
  | .null => [(key, JSON.null)]
  | .present a => [(key, enc a)]

/-- A decimal number `mant / 10 ^ scale`. -/
structure Num where
  mant : Int
  scale : Nat

/-- The number as a JavaScript value. -/
def Num.toJSON (n : Num) : JSON := .num n.mant n.scale

/-- A device as the backend describes it:
`{mac: string, name?: string, distance?: number, connected: boolean}`. -/
structure Device where
  mac : String
  name : Field String
  distance : Field Num
  connected : Bool

/-- The JSON object of a device. -/
def Device.toJSON (d : Device) : JSON :=
  .obj ([("mac", .str d.mac)] ++ Field.props "name" JSON.str d.name
    ++ Field.props "distance" Num.toJSON d.distance ++ [("connected", .bool d.connected)])

/-! ## Polls and scans -/

/-- Whether a parsed body has an own property of that name. -/
def hasKey (key : String) : JSON → Bool
  | .obj props => (lookup key props).isSome
  | _ => false

/-- A body without a `devices` property: reading `.devices` throws on `null`
and gives `undefined` on anything else. -/
theorem get_devices_of_not_hasKey (body : JSON) (h : hasKey "devices" body = false) :
    body = .null ∨ body.get "devices" = .ok none := by
  cases body with
  | null => exact Or.inl rfl
  | obj props =>
    right
    simp only [hasKey] at h
    simp only [JSON.get]
    cases hl : lookup "devices" props with
    | none => rfl
    | some v => simp [hl] at h
  | bool b => exact Or.inr rfl
  | num m e => exact Or.inr rfl
  | str t => exact Or.inr rfl
  | arr items => exact Or.inr rfl

/-- C1. A poll whose response carries a `devices` list `L` replaces the
registry by exactly `L`, whatever it held before and whatever `L` is (the empty
list included), and clears the error; `loading` is not touched. -/
theorem poll_success_replaces_registry (s : State) (status : Nat) (body : JSON)
    (L : List JSON) (hL : body.get "devices" = .ok (some (.arr L))) :
    fetchDevicesSettled (.resolved status (some body)) s
      = { devices := .arr L, loading := s.loading, error := none } := by
  simp [fetchDevicesSettled, fetchDevicesTry, Outcome.response, json, bind, Except.bind, hL,
    JSON.truthy, pure, Except.pure]

theorem poll_success_replaces_registry_witness :
    (JSON.obj [("devices", .arr [.obj [("mac", .str "AA:BB")]])]).get "devices"
        = .ok (some (.arr [.obj [("mac", .str "AA:BB")]]))
    ∧ fetchDevicesSettled
        (.resolved 200 (some (.obj [("devices", .arr [.obj [("mac", .str "AA:BB")]])])))
        { devices := .arr [.obj [("mac", .str "CC:DD")], .obj [("mac", .str "EE:FF")]],
          loading := true, error := some "Backend unreachable" }
      = { devices := .arr [.obj [("mac", .str "AA:BB")]], loading := true, error := none } :=
  ⟨rfl, poll_success_replaces_registry _ 200 _ _ rfl⟩

/-- C2, as the spec states it, fails on the body `null`: it parsed and has no
`devices` key, yet the error is "Backend unreachable". -/
theorem poll_null_body_counterexample :
    hasKey "devices" JSON.null = false
    ∧ (fetchDevicesSettled (.resolved 200 (some .null)) State.initial).error
        = some "Backend unreachable"
    ∧ (fetchDevicesSettled (.resolved 200 (some .null)) State.initial).error
        ≠ some "Failed to fetch devices" := by
  refine ⟨rfl, rfl, ?_⟩
  decide

/-- C2, amended. A poll that fails leaves the registry (and `loading`) as it
was and sets the error: "Failed to fetch devices" for every parsed body other
than `null` that has no `devices` key, and for every body whose `devices` value
is falsy; "Backend unreachable" when the request rejected, when the body could
not be parsed, and when the body parsed to `null`. Whenever the error is set
after a poll, the registry is the one from before and the error is one of
these two. -/
theorem poll_failure_keeps_registry (s : State) :
    fetchDevicesSettled .rejected s = { s with error := some "Backend unreachable" }
    ∧ (∀ status : Nat, fetchDevicesSettled (.resolved status none) s
        = { s with error := some "Backend unreachable" })
    ∧ (∀ status : Nat, fetchDevicesSettled (.resolved status (some .null)) s
        = { s with error := some "Backend unreachable" })
    ∧ (∀ (status : Nat) (body : JSON), body ≠ .null → hasKey "devices" body = false →
        fetchDevicesSettled (.resolved status (some body)) s
          = { s with error := some "Failed to fetch devices" })
    ∧ (∀ (status : Nat) (props : List (String × JSON)) (v : JSON),
        lookup "devices" props = some v → v.truthy = false →
        fetchDevicesSettled (.resolved status (some (.obj props))) s
          = { s with error := some "Failed to fetch devices" })
    ∧ (∀ o : Outcome, (fetchDevicesSettled o s).error ≠ none →
        (fetchDevicesSettled o s).devices = s.devices
        ∧ (fetchDevicesSettled o s).loading = s.loading
        ∧ ((fetchDevicesSettled o s).error = some "Failed to fetch devices"
          ∨ (fetchDevicesSettled o s).error = some "Backend unreachable")) := by
  refine ⟨rfl, fun _ => rfl, fun _ => rfl, ?_, ?_, ?_⟩
  · intro status body hnull hkey
    rcases get_devices_of_not_hasKey body hkey with h | h
    · exact absurd h hnull
    · simp [fetchDevicesSettled, fetchDevicesTry, Outcome.response, json, bind, Except.bind, h,
        pure, Except.pure]
  · intro status props v hv hfalsy
    simp [fetchDevicesSettled, fetchDevicesTry, Outcome.response, json, bind, Except.bind,
      JSON.get, hv, hfalsy, pure, Except.pure]
  · intro o herr
    rcases o with _ | ⟨status, _ | body⟩
    · exact ⟨rfl, rfl, Or.inr rfl⟩
    · exact ⟨rfl, rfl, Or.inr rfl⟩
    · cases hg : body.get "devices" with
      | error e =>
        simp [fetchDevicesSettled, fetchDevicesTry, Outcome.response, json, bind, Except.bind,
          hg]
      | ok d =>
        cases d with
        | none =>
          simp [fetchDevicesSettled, fetchDevicesTry, Outcome.response, json, bind,
            Except.bind, hg, pure, Except.pure]
        | some v =>
          cases hv : v.truthy
          · simp [fetchDevicesSettled, fetchDevicesTry, Outcome.response, json, bind,
              Except.bind, hg, hv, pure, Except.pure]
          · simp [fetchDevicesSettled, fetchDevicesTry, Outcome.response, json, bind,
              Except.bind, hg, hv, pure, Except.pure] at herr

theorem poll_failure_keeps_registry_witness :
    lookup "devices" [("devices", JSON.num 0 0)] = some (.num 0 0)
    ∧ (JSON.num 0 0).truthy = false
    ∧ fetchDevicesSettled (.resolved 200 (some (.obj [("devices", .num 0 0)])))
        { devices := .arr [.obj [("mac", .str "AA:BB")]], loading := false, error := none }
      = { devices := .arr [.obj [("mac", .str "AA:BB")]], loading := false,
          error := some "Failed to fetch devices" }
    ∧ JSON.obj [("error", .str "adapter off")] ≠ .null
    ∧ hasKey "devices" (JSON.obj [("error", .str "adapter off")]) = false
    ∧ fetchDevicesSettled (.resolved 500 (some (.obj [("error", .str "adapter off")])))
        { devices := .arr [.obj [("mac", .str "AA:BB")]], loading := false, error := none }
      = { devices := .arr [.obj [("mac", .str "AA:BB")]], loading := false,
          error := some "Failed to fetch devices" }
    ∧ (fetchDevicesSettled (.resolved 200 none)
        { devices := .arr [.obj [("mac", .str "AA:BB")]], loading := false, error := none }).devices
      = .arr [.obj [("mac", .str "AA:BB")]] :=
  ⟨rfl, by decide,
    (poll_failure_keeps_registry
      { devices := .arr [.obj [("mac", .str "AA:BB")]], loading := false, error := none }).2.2.2.2.1
      200 _ _ rfl (by decide),
    by simp, by decide,
    (poll_failure_keeps_registry
      { devices := .arr [.obj [("mac", .str "AA:BB")]], loading := false, error := none }).2.2.2.1
      500 _ (by simp) (by decide),
    ((poll_failure_keeps_registry
      { devices := .arr [.obj [("mac", .str "AA:BB")]], loading := false, error := none }).2.2.2.2.2
      (.resolved 200 none) (by decide)).1⟩

/-- C5. A scan whose response carries a `devices` list `L` makes the registry
exactly `L` and clears the error; a scan whose request is rejected, whose body
cannot be parsed, or whose body lacks `devices`, sets the error to "Scan failed"
and keeps the registry. In every case `loading` ends false. -/
theorem scan_outcomes (s : State) :
    (∀ (status : Nat) (body : JSON) (L : List JSON),
        body.get "devices" = .ok (some (.arr L)) →
        handleScanSettled (.resolved status (some body)) s
          = { devices := .arr L, loading := false, error := none })
    ∧ handleScanSettled .rejected s
        = { devices := s.devices, loading := false, error := some "Scan failed" }
    ∧ (∀ status : Nat, handleScanSettled (.resolved status none) s
        = { devices := s.devices, loading := false, error := some "Scan failed" })
    ∧ (∀ (status : Nat) (body : JSON), hasKey "devices" body = false →
        handleScanSettled (.resolved status (some body)) s
          = { devices := s.devices, loading := false, error := some "Scan failed" }) := by
  refine ⟨?_, rfl, fun _ => rfl, ?_⟩
  · intro status body L hL
    simp [handleScanSettled, handleScanTry, Outcome.response, json, bind, Except.bind, hL,
      JSON.truthy, pure, Except.pure]
  · intro status body hkey
    rcases get_devices_of_not_hasKey body hkey with h | h
    · subst h
      rfl
    · simp [handleScanSettled, handleScanTry, Outcome.response, json, bind, Except.bind, h,
        pure, Except.pure]

theorem scan_outcomes_witness :
    (JSON.obj [("devices", .arr [])]).get "devices" = .ok (some (.arr []))
    ∧ handleScanSettled (.resolved 200 (some (.obj [("devices", .arr [])])))
        { devices := .arr [.obj [("mac", .str "AA:BB")]], loading := true,
          error := some "Scan failed" }
      = { devices := .arr [], loading := false, error := none } :=
  ⟨rfl,
    (scan_outcomes
      { devices := .arr [.obj [("mac", .str "AA:BB")]], loading := true,
        error := some "Scan failed" }).1 200 _ [] rfl⟩

/-! ## Runs of the component -/

theorem fetchDevicesSettled_devices (o : Outcome) (s : State) :
    (fetchDevicesSettled o s).devices = (o.carried).getD s.devices := by
  rcases o with _ | ⟨status, _ | body⟩
  · rfl
  · rfl
  · cases body with
    | obj props =>
      cases hl : lookup "devices" props with
      | none =>
        simp [fetchDevicesSettled, fetchDevicesTry, Outcome.response, json, bind, Except.bind,
          JSON.get, hl, pure, Except.pure, Outcome.carried]
      | some v =>
        cases hv : v.truthy <;>
        simp [fetchDevicesSettled, fetchDevicesTry, Outcome.response, json, bind, Except.bind,
          JSON.get, hl, hv, pure, Except.pure, Outcome.carried, Option.filter]
    | null => rfl
    | bool b => rfl
    | num m e => rfl
    | str t => rfl
    | arr items => rfl

theorem fetchDevicesSettled_loading (o : Outcome) (s : State) :
    (fetchDevicesSettled o s).loading = s.loading := by
  unfold fetchDevicesSettled fetchDevicesTry
  rcases o with _ | ⟨status, _ | body⟩
  · rfl
  · rfl
  · simp only [Outcome.response, json, bind, Except.bind, pure, Except.pure]
    cases body.get "devices" with
    | error e => rfl
    | ok d =>
      cases d with
      | none => rfl
      | some v => cases hv : v.truthy <;> simp [hv]

theorem handleScanSettled_devices (o : Outcome) (s : State) :
    (handleScanSettled o s).devices = (o.carried).getD s.devices := by
  rcases o with _ | ⟨status, _ | body⟩
  · rfl
  · rfl
  · cases body with
    | obj props =>
      cases hl : lookup "devices" props with
      | none =>
        simp [handleScanSettled, handleScanTry, Outcome.response, json, bind, Except.bind,
          JSON.get, hl, pure, Except.pure, Outcome.carried]
      | some v =>
        cases hv : v.truthy <;>
        simp [handleScanSettled, handleScanTry, Outcome.response, json, bind, Except.bind,
          JSON.get, hl, hv, pure, Except.pure, Outcome.carried, Option.filter]
    | null => rfl
    | bool b => rfl
    | num m e => rfl
    | str t => rfl
    | arr items => rfl

theorem handleScanSettled_loading (o : Outcome) (s : State) :
    (handleScanSettled o s).loading = false := rfl

/-- One event changes the registry only by completing a poll or a scan whose
response carries devices. -/
theorem step_devices (s : Sys) (e : Event) :
    (step s e).state.devices
      = (((completed s e).filterMap Outcome.carried).getLast?).getD s.state.devices := by
  cases e with
  | mount => rfl
  | tick => rfl
  | clickScan =>
    simp only [step, completed]
    split <;> rfl
  | scan => rfl
  | pair mac => rfl
  | disconnect mac => rfl
  | settle i o =>
    simp only [step, completed]
    cases hk : s.inflight[i]? with
    | none => rfl
    | some k =>
      cases k with
      | fetchDevices =>
        simp only [resume, fetchDevicesSettled_devices]
        cases hc : o.carried <;> simp [List.filterMap_cons, hc]
      | handleScan =>
        simp only [resume, handleScanSettled_devices]
        cases hc : o.carried <;> simp [List.filterMap_cons, hc]
      | handlePairPair mac => cases o <;> rfl
      | handlePairConnect mac => cases o <;> rfl
      | handleDisconnect mac => cases o <;> rfl

/-- After any run the registry is the list of the last completed response that
carried devices, and the registry of the start when none did. -/
theorem run_devices (es : List Event) :
    ∀ s : Sys, (run s es).state.devices
      = (((completions s es).filterMap Outcome.carried).getLast?).getD s.state.devices := by
  induction es with
  | nil => intro s; rfl
  | cons e es ih =>
    intro s
    simp only [run, completions, List.filterMap_append, List.getLast?_append, ih, step_devices]
    cases ((completions (step s e) es).filterMap Outcome.carried).getLast? <;> simp

/-- A decimal too small for a double, `1e-400`, is the number 0, hence falsy. -/
theorem tiny_number_falsy : numNonZero 1 400 = false := by
  simp only [numNonZero, Nat.shiftLeft_eq, decide_eq_false_iff_not, not_lt]
  norm_num

/-- C3. From the empty registry, after any sequence of events the registry is
the device list of the most recently completed poll or scan response that
carried devices (empty when none did), in the order the backend gave it; the
order of issue plays no part. In particular, when a second poll completes
before the first one, the registry ends with the list of the first-issued,
last-completed poll; and a later response whose `devices` is falsy, such as the
number `1e-400`, is not applied and leaves the list of the earlier one. -/
theorem registry_is_last_completed :
    (∀ es : List Event,
      (run Sys.initial es).state.devices = lastApplied (completions Sys.initial es))
    ∧ (∀ (A B : List JSON) (statusA statusB : Nat),
      (run Sys.initial
        [.tick, .tick,
         .settle 1 (.resolved statusB (some (.obj [("devices", .arr B)]))),
         .settle 0 (.resolved statusA (some (.obj [("devices", .arr A)])))]).state.devices
        = .arr A)
    ∧ (∀ (A : List JSON) (statusA statusB : Nat),
      (run Sys.initial
        [.tick, .settle 0 (.resolved statusA (some (.obj [("devices", .arr A)]))),
         .scan, .settle 0 (.resolved statusB (some (.obj [("devices", .num 1 400)])))]).state
        = { devices := .arr A, loading := false, error := some "Scan failed" }) := by
  refine ⟨fun es => ?_, fun A B statusA statusB => rfl, fun A statusA statusB => ?_⟩
  · rw [run_devices es Sys.initial]
    rfl
  · simp [run, step, Sys.initial, State.initial, fetchDevices, handleScan, issue, resume,
      fetchDevicesSettled, fetchDevicesTry, handleScanSettled, handleScanTry, Outcome.response,
      json, bind, Except.bind, pure, Except.pure, JSON.get, lookup, tiny_number_falsy,
      JSON.truthy]

/-- Removing a request that is not a scan keeps every pending scan pending. -/
theorem scan_mem_eraseIdx (l : List Cont) (i : Nat) (k : Cont)
    (hk : l[i]? = some k) (hne : k ≠ .handleScan) (hmem : Cont.handleScan ∈ l) :
    Cont.handleScan ∈ l.eraseIdx i := by
  rw [List.mem_eraseIdx_iff_getElem?]
  obtain ⟨j, hj⟩ := List.mem_iff_getElem?.mp hmem
  refine ⟨j, ?_, hj⟩
  intro hji
  subst hji
  rw [hk] at hj
  exact hne (Option.some.inj hj)

/-- The invariant of the `loading` flag is kept by every event. -/
theorem step_loading (s : Sys) (e : Event)
    (inv : s.state.loading = true → Cont.handleScan ∈ s.inflight) :
    (step s e).state.loading = true → Cont.handleScan ∈ (step s e).inflight := by
  cases e with
  | mount => intro h; simp [step, fetchDevices, issue] at h ⊢; exact inv h
  | tick => intro h; simp [step, fetchDevices, issue] at h ⊢; exact inv h
  | clickScan =>
    simp only [step]
    split
    · exact inv
    · intro _; simp [handleScan, issue]
  | scan => intro _; simp [step, handleScan, issue]
  | pair mac => intro h; simp [step, handlePair, issue] at h ⊢; exact inv h
  | disconnect mac =>
    intro h; simp [step, handleDisconnect, issue] at h ⊢; exact inv h
  | settle i o =>
    simp only [step]
    cases hk : s.inflight[i]? with
    | none => exact inv
    | some k =>
      cases k with
      | fetchDevices =>
        intro h
        simp only [resume, fetchDevicesSettled_loading] at h ⊢
        exact scan_mem_eraseIdx _ i _ hk (by simp) (inv h)
      | handleScan =>
        intro h
        simp [resume, handleScanSettled_loading] at h
      | handlePairPair mac =>
        intro h
        cases o with
        | rejected => exact scan_mem_eraseIdx _ i _ hk (by simp) (inv h)
        | resolved status body =>
          simp only [resume, issue, List.mem_append] at h ⊢
          exact Or.inl (scan_mem_eraseIdx _ i _ hk (by simp) (inv h))
      | handlePairConnect mac =>
        intro h
        cases o with
        | rejected => exact scan_mem_eraseIdx _ i _ hk (by simp) (inv h)
        | resolved status body =>
          simp only [resume, fetchDevices, issue, List.mem_append] at h ⊢
          exact Or.inl (scan_mem_eraseIdx _ i _ hk (by simp) (inv h))
      | handleDisconnect mac =>
        intro h
        cases o with
        | rejected => exact scan_mem_eraseIdx _ i _ hk (by simp) (inv h)
        | resolved status body =>
          simp only [resume, fetchDevices, issue, List.mem_append] at h ⊢
          exact Or.inl (scan_mem_eraseIdx _ i _ hk (by simp) (inv h))

theorem run_loading (es : List Event) :
    ∀ s : Sys, (s.state.loading = true → Cont.handleScan ∈ s.inflight) →
      (run s es).state.loading = true → Cont.handleScan ∈ (run s es).inflight := by
  induction es with
  | nil => intro s inv; exact inv
  | cons e es ih => intro s inv; exact ih (step s e) (step_loading s e inv)

/-- C4. `loading` is false at the start; `handleScan` sets it true as it sends
its request; when a scan request settles, in whatever way (devices, no devices,
unparsable body, rejection), `loading` is false again; and in every reachable
state `loading = true` implies that a scan request is still in flight. -/
theorem scanning_flag :
    Sys.initial.state.loading = false
    ∧ (∀ s : Sys, (handleScan s).state.loading = true
        ∧ (handleScan s).inflight = s.inflight ++ [.handleScan]
        ∧ (handleScan s).log = s.log ++ [scanRequest])
    ∧ (∀ (s : Sys) (i : Nat) (o : Outcome), s.inflight[i]? = some .handleScan →
        (step s (.settle i o)).state.loading = false)
    ∧ (∀ es : List Event, (run Sys.initial es).state.loading = true →
        Cont.handleScan ∈ (run Sys.initial es).inflight) := by
  refine ⟨rfl, fun s => ⟨rfl, rfl, rfl⟩, ?_, ?_⟩
  · intro s i o hk
    simp [step, hk, resume, handleScanSettled_loading]
  · intro es
    exact run_loading es Sys.initial (by simp [Sys.initial, State.initial])

theorem scanning_flag_witness :
    (run Sys.initial [.mount, .clickScan]).inflight[1]? = some .handleScan
    ∧ (run Sys.initial [.mount, .clickScan]).state.loading = true
    ∧ (step (run Sys.initial [.mount, .clickScan]) (.settle 1 .rejected)).state.loading = false
    ∧ Cont.handleScan ∈ (run Sys.initial [.mount, .clickScan]).inflight :=
  ⟨rfl, rfl, scanning_flag.2.2.1 _ 1 .rejected rfl,
    scanning_flag.2.2.2 [.mount, .clickScan] rfl⟩

/-! ## Pairing -/

/-- Settling the request that was sent last resumes its handler. -/
theorem settle_appended (st : State) (l : List Cont) (log : List Request) (k : Cont)
    (o : Outcome) :
    step { state := st, inflight := l ++ [k], log := log } (.settle l.length o)
      = resume k o { state := st, inflight := l, log := log } := by
  simp [step, List.eraseIdx_append_of_length_le]

/-- The call `handlePair(mac)` sends the pair request and waits for it. -/
theorem step_pair (s : Sys) (mac : Option JSON) :
    step s (.pair mac)
      = { state := s.state, inflight := s.inflight ++ [.handlePairPair mac],
          log := s.log ++ [pairRequest mac] } := rfl

/-- A resolved pair request: the connect request is sent. -/
theorem resume_pair_resolved (st : State) (l : List Cont) (log : List Request)
    (mac : Option JSON) (status : Nat) (body : Option JSON) :
    resume (.handlePairPair mac) (.resolved status body)
        { state := st, inflight := l, log := log }
      = { state := st, inflight := l ++ [.handlePairConnect mac],
          log := log ++ [connectRequest mac] } := rfl

/-- A resolved connect request: the poll is sent. -/
theorem resume_connect_resolved (st : State) (l : List Cont) (log : List Request)
    (mac : Option JSON) (status : Nat) (body : Option JSON) :
    resume (.handlePairConnect mac) (.resolved status body)
        { state := st, inflight := l, log := log }
      = { state := st, inflight := l ++ [.fetchDevices], log := log ++ [devicesRequest] } := rfl

/-- The three steps of `handlePair(mac)` when both action requests resolve. -/
theorem run_pair_resolved (s : Sys) (mac : Option JSON) (status1 status2 : Nat)
    (body1 body2 : Option JSON) :
    run s [.pair mac, .settle s.inflight.length (.resolved status1 body1),
        .settle s.inflight.length (.resolved status2 body2)]
      = { state := s.state, inflight := s.inflight ++ [.fetchDevices],
          log := s.log ++ [pairRequest mac, connectRequest mac, devicesRequest] } := by
  simp only [run]
  rw [step_pair, settle_appended, resume_pair_resolved, settle_appended,
    resume_connect_resolved]
  simp

/-- C6. Whatever the pair and connect responses are, `handlePair(mac)` sends
exactly three requests in this order: POST /api/pair with `{mac}`, POST
/api/connect with `{mac}`, GET /api/devices; up to there the state is
untouched, and the only change is the one the final poll makes when it settles. -/
theorem pair_request_sequence (s : Sys) (mac : Option JSON) (status1 status2 : Nat)
    (body1 body2 : Option JSON) :
    (run s [.pair mac, .settle s.inflight.length (.resolved status1 body1),
        .settle s.inflight.length (.resolved status2 body2)]).log
      = s.log ++
        [{ method := .POST, url := "http://localhost:5000/api/pair",
           body := some [("mac", mac)] },
         { method := .POST, url := "http://localhost:5000/api/connect",
           body := some [("mac", mac)] },
         { method := .GET, url := "http://localhost:5000/api/devices", body := none }]
    ∧ (run s [.pair mac, .settle s.inflight.length (.resolved status1 body1),
        .settle s.inflight.length (.resolved status2 body2)]).state = s.state
    ∧ (run s [.pair mac, .settle s.inflight.length (.resolved status1 body1),
        .settle s.inflight.length (.resolved status2 body2)]).inflight
      = s.inflight ++ [.fetchDevices]
    ∧ ∀ o : Outcome,
      run s [.pair mac, .settle s.inflight.length (.resolved status1 body1),
        .settle s.inflight.length (.resolved status2 body2), .settle s.inflight.length o]
      = { state := fetchDevicesSettled o s.state, inflight := s.inflight,
          log := s.log ++ [pairRequest mac, connectRequest mac, devicesRequest] } := by
  refine ⟨?_, ?_, ?_, ?_⟩
  · rw [run_pair_resolved]; rfl
  · rw [run_pair_resolved]
  · rw [run_pair_resolved]
  · intro o
    have h := run_pair_resolved s mac status1 status2 body1 body2
    simp only [run] at h ⊢
    rw [h, settle_appended]
    rfl

/-- C7, as the spec states it, fails when the pair request rejects: the
handler ends there, only the pair request was sent, nothing is pending. -/
theorem pair_rejected_counterexample :
    (run Sys.initial [.pair (some (.str "AA:BB")), .settle 0 .rejected]).log
      = [{ method := .POST, url := "http://localhost:5000/api/pair",
           body := some [("mac", some (.str "AA:BB"))] }]
    ∧ (run Sys.initial [.pair (some (.str "AA:BB")), .settle 0 .rejected]).inflight = [] :=
  ⟨rfl, rfl⟩

/-- C7, amended. `handlePair(mac)` sends the connect request whenever the pair
request resolves, whatever status and body the response has, and once the
connect request resolves too it sends the poll; when the pair request rejects
the handler ends with the pair request alone, and when the connect request
rejects it ends without the poll. -/
theorem pair_then_connect (s : Sys) (mac : Option JSON) :
    (∀ (status : Nat) (body : Option JSON),
      run s [.pair mac, .settle s.inflight.length (.resolved status body)]
        = { state := s.state, inflight := s.inflight ++ [.handlePairConnect mac],
            log := s.log ++ [pairRequest mac, connectRequest mac] })
    ∧ (∀ (status1 status2 : Nat) (body1 body2 : Option JSON),
      run s [.pair mac, .settle s.inflight.length (.resolved status1 body1),
          .settle s.inflight.length (.resolved status2 body2)]
        = { state := s.state, inflight := s.inflight ++ [.fetchDevices],
            log := s.log ++ [pairRequest mac, connectRequest mac, devicesRequest] })
    ∧ run s [.pair mac, .settle s.inflight.length .rejected]
        = { state := s.state, inflight := s.inflight, log := s.log ++ [pairRequest mac] }
    ∧ (∀ (status : Nat) (body : Option JSON),
      run s [.pair mac, .settle s.inflight.length (.resolved status body),
          .settle s.inflight.length .rejected]
        = { state := s.state, inflight := s.inflight,
            log := s.log ++ [pairRequest mac, connectRequest mac] }) := by
  refine ⟨?_, run_pair_resolved s mac, ?_, ?_⟩
  · intro status body
    simp only [run]
    rw [step_pair, settle_appended, resume_pair_resolved]
    simp
  · simp only [run]
    rw [step_pair, settle_appended]
    rfl
  · intro status body
    simp only [run]
    rw [step_pair, settle_appended, resume_pair_resolved, settle_appended]
    simp [resume]

/-! ## Chart and list -/

theorem mapThrow_map_ok {α β γ : Type} (f : β → Except JSError γ) (h : α → β) (g : α → γ)
    (hyp : ∀ a, f (h a) = .ok (g a)) (xs : List α) :
    mapThrow f (xs.map h) = .ok (xs.map g) := by
  induction xs with
  | nil => rfl
  | cons x xs ih => simp [mapThrow, hyp, ih]

theorem Device.get_mac (d : Device) : d.toJSON.get "mac" = .ok (some (.str d.mac)) := by
  rcases d with ⟨mac, name, distance, connected⟩
  cases name <;> cases distance <;> rfl

theorem Device.get_name (d : Device) :
    d.toJSON.get "name"
      = .ok (match d.name with
          | .absent => none
          | .null => some .null
          | .present n => some (.str n)) := by
  rcases d with ⟨mac, name, distance, connected⟩
  cases name <;> cases distance <;> rfl

theorem Device.get_distance (d : Device) :
    d.toJSON.get "distance"
      = .ok (match d.distance with
          | .absent => none
          | .null => some .null
          | .present x => some (.num x.mant x.scale)) := by
  rcases d with ⟨mac, name, distance, connected⟩
  cases name <;> cases distance <;> rfl

theorem Device.get_connected (d : Device) :
    d.toJSON.get "connected" = .ok (some (.bool d.connected)) := by
  rcases d with ⟨mac, name, distance, connected⟩
  cases name <;> cases distance <;> rfl

/-- The label of a device: its name when that is a non-empty string, its mac
otherwise. -/
theorem chartLabel_device (d : Device) :
    chartLabel d.toJSON
      = .ok (match d.name with
          | .present n => if n = "" then some (.str d.mac) else some (.str n)
          | _ => some (.str d.mac)) := by
  simp only [chartLabel, Device.get_name, Device.get_mac, bind, Except.bind, pure, Except.pure]
  cases d.name with
  | absent => rfl
  | null => rfl
  | present n => by_cases hn : n = "" <;> simp [truthy, JSON.truthy, hn]

/-- The chart value of a device: its distance when present, 0 otherwise. -/
theorem chartValue_device (d : Device) :
    chartValue d.toJSON
      = .ok (match d.distance with
          | .present x => some (.num x.mant x.scale)
          | _ => some (.num 0 0)) := by
  simp only [chartValue, Device.get_distance, bind, Except.bind, pure, Except.pure]
  cases d.distance <;> rfl

/-- C8, as the spec states it, fails for a name that is present but empty:
the label is the mac, not the name. -/
theorem chart_empty_name_counterexample :
    lookup "name" [("mac", JSON.str "AA:BB"), ("name", JSON.str "")] = some (.str "")
    ∧ chartLabel (.obj [("mac", .str "AA:BB"), ("name", .str "")]) = .ok (some (.str "AA:BB"))
    ∧ chartLabel (.obj [("mac", .str "AA:BB"), ("name", .str "")]) ≠ .ok (some (.str "")) := by
  refine ⟨rfl, rfl, ?_⟩
  rw [show chartLabel (.obj [("mac", .str "AA:BB"), ("name", .str "")])
    = .ok (some (.str "AA:BB")) from rfl]
  simp

/-- C8, amended. For every registry `D`, the chart has one label and one value
per device, in the order of `D`: the label is the name when it is present and
not the empty string, the mac otherwise; the value is the distance when it is
present (0 included), and 0 otherwise. -/
theorem chart_projection (D : List Device) :
    ∃ (c : ChartData) (series : Dataset),
      chartData (.arr (D.map Device.toJSON)) = .ok c
      ∧ c.datasets = [series]
      ∧ c.labels.length = D.length
      ∧ series.data.length = D.length
      ∧ c.labels = D.map (fun d =>
          match d.name with
          | .present n => if n = "" then some (.str d.mac) else some (.str n)
          | _ => some (.str d.mac))
      ∧ series.data = D.map (fun d =>
          match d.distance with
          | .present x => some (.num x.mant x.scale)
          | _ => some (.num 0 0)) := by
  refine ⟨{ labels := _, datasets := [_] },
    { label := "Distance (m)", data := _, fill := false, borderColor := "#4bc0c0",
      backgroundColor := "#4bc0c0", tension := .num 1 1 }, ?_, rfl, ?_, ?_, rfl, rfl⟩
  · simp only [chartData, JSON.map, bind, Except.bind, pure, Except.pure]
    rw [mapThrow_map_ok chartLabel Device.toJSON _ chartLabel_device,
      mapThrow_map_ok chartValue Device.toJSON _ chartValue_device]
  · exact List.length_map _ _
  · exact List.length_map _ _

/-- The text of a known distance never reads "Distance: ?". -/
theorem known_distance_ne_unknown (t : String) : "Distance: " ++ (t ++ " m") ≠ "Distance: ?" := by
  intro h
  have hlen := congrArg String.length h
  simp only [String.length_append] at hlen
  have h1 : "Distance: ".length = 10 := by decide
  have h2 : " m".length = 2 := by decide
  have h3 : "Distance: ?".length = 11 := by decide
  omega

/-- The row of a device, field by field, whatever text the engine prints for a
number. -/
theorem deviceRow_device (numberToString : Int → Nat → String) (d : Device) :
    deviceRow numberToString d.toJSON
      = .ok
          { name :=
              match d.name with
              | .present n => if n = "" then some (.str "Unknown Device") else some (.str n)
              | _ => some (.str "Unknown Device"),
            mac := some (.str d.mac),
            distance :=
              match d.distance with
              | .present x => "Distance: " ++ (numberToString x.mant x.scale ++ " m")
              | _ => "Distance: ?",
            buttons :=
              if d.connected then
                [{ className := "btn disconnect", text := "Disconnect",
                   onClick := .disconnect (some (.str d.mac)) }]
              else
                [{ className := "btn", text := "Pair", onClick := .pair (some (.str d.mac)) }] } := by
  simp only [deviceRow, Device.get_name, Device.get_mac, Device.get_distance,
    Device.get_connected, bind, Except.bind, pure, Except.pure]
  have htext : distanceText numberToString
      (match d.distance with
        | .absent => none
        | .null => some .null
        | .present x => some (.num x.mant x.scale))
      = .ok (match d.distance with
        | .present x => numberToString x.mant x.scale ++ " m"
        | _ => "?") := by
    cases d.distance <;> rfl
  rw [htext]
  simp only
  congr 2
  · cases d.name with
    | absent => rfl
    | null => rfl
    | present n => by_cases hn : n = "" <;> simp [truthy, JSON.truthy, hn]
  · cases d.distance <;> rfl
  · cases d.connected <;> rfl

/-- C9. Whatever text the engine prints for a number, the row of a device shows
its mac; its distance text is "Distance: ?" exactly when the distance is
missing or null, and "Distance: <distance> m" otherwise, so that a known 0
(printed "0") shows "Distance: 0 m" and a known 1.2 (printed "1.2") shows
"Distance: 1.2 m", while the chart value is 0 for a known 0 and for an unknown
distance alike; and it has exactly one button, "Pair" (calling `handlePair`
with the mac) when `connected` is false and "Disconnect" (calling
`handleDisconnect`) when it is true. The list has one such row per device, in
the order of the registry. -/
theorem device_row (numberToString : Int → Nat → String) (d : Device) :
    ∃ r : Row,
      deviceRow numberToString d.toJSON = .ok r
      ∧ r.mac = some (.str d.mac)
      ∧ r.distance =
          (match d.distance with
            | .present x => "Distance: " ++ (numberToString x.mant x.scale ++ " m")
            | _ => "Distance: ?")
      ∧ (r.distance = "Distance: ?" ↔ d.distance = .absent ∨ d.distance = .null)
      ∧ (numberToString 0 0 = "0" → d.distance = .present { mant := 0, scale := 0 } →
          r.distance = "Distance: 0 m")
      ∧ (numberToString 12 1 = "1.2" → d.distance = .present { mant := 12, scale := 1 } →
          r.distance = "Distance: 1.2 m")
      ∧ (d.distance = .present { mant := 0, scale := 0 } ∨ d.distance = .absent
          ∨ d.distance = .null → chartValue d.toJSON = .ok (some (.num 0 0)))
      ∧ (d.connected = false →
          r.buttons = [{ className := "btn", text := "Pair",
                         onClick := .pair (some (.str d.mac)) }])
      ∧ (d.connected = true →
          r.buttons = [{ className := "btn disconnect", text := "Disconnect",
                         onClick := .disconnect (some (.str d.mac)) }])
      ∧ ∀ D : List Device, ∃ rows : List Row,
          deviceList numberToString (.arr (D.map Device.toJSON)) = .ok rows
          ∧ rows.length = D.length
          ∧ List.Forall₂ (fun dev row => deviceRow numberToString dev.toJSON = .ok row)
              D rows := by
  refine ⟨_, deviceRow_device numberToString d, rfl, rfl, ?_, ?_, ?_, ?_, ?_, ?_, ?_⟩
  · cases hd : d.distance with
    | absent => simp
    | null => simp
    | present x => simp [known_distance_ne_unknown]
  · intro hzero h
    simp only [h, hzero]
    decide
  · intro hnum h
    simp only [h, hnum]
    decide
  · intro h
    rw [chartValue_device]
    rcases h with h | h | h <;> simp [h]
  · intro h; simp [h]
  · intro h; simp [h]
  · intro D
    have hrows :=
      mapThrow_map_ok (deviceRow numberToString) Device.toJSON _
        (deviceRow_device numberToString) D
    refine ⟨_, hrows, List.length_map _ _, ?_⟩
    rw [List.forall₂_map_right_iff, List.forall₂_same]
    intro dev _
    exact deviceRow_device numberToString dev

theorem device_row_witness :
    plainDecimal 12 1 = "1.2"
    ∧ plainDecimal 0 0 = "0"
    ∧ (deviceRow plainDecimal (Device.toJSON
        (Device.mk "AA:BB" (.present "Earbuds") (.present { mant := 12, scale := 1 }) false))).map
          Row.distance = .ok "Distance: 1.2 m"
    ∧ (deviceRow plainDecimal (Device.toJSON
        (Device.mk "CC:DD" .absent (.present { mant := 0, scale := 0 }) true))).map
          Row.distance = .ok "Distance: 0 m"
    ∧ (deviceRow plainDecimal (Device.toJSON
        (Device.mk "AA:BB" (.present "Earbuds") (.present { mant := 12, scale := 1 }) false))).map
          Row.buttons
        = .ok [{ className := "btn", text := "Pair", onClick := .pair (some (.str "AA:BB")) }]
    ∧ (deviceRow plainDecimal (Device.toJSON
        (Device.mk "CC:DD" .absent (.present { mant := 0, scale := 0 }) true))).map
          Row.buttons
        = .ok [{ className := "btn disconnect", text := "Disconnect",
                 onClick := .disconnect (some (.str "CC:DD")) }] := by
  obtain ⟨r, hr, _, _, _, _, hnum, _, hpair, _, _⟩ :=
    device_row plainDecimal
      (Device.mk "AA:BB" (.present "Earbuds") (.present { mant := 12, scale := 1 }) false)
  obtain ⟨r0, hr0, _, _, _, hzero, _, _, _, hdisc, _⟩ :=
    device_row plainDecimal
      (Device.mk "CC:DD" .absent (.present { mant := 0, scale := 0 }) true)
  refine ⟨by decide, by decide, ?_, ?_, ?_, ?_⟩
  · rw [hr]; exact congrArg Except.ok (hnum (by decide) rfl)
  · rw [hr0]; exact congrArg Except.ok (hzero (by decide) rfl)
  · rw [hr]; exact congrArg Except.ok (hpair rfl)
  · rw [hr0]; exact congrArg Except.ok (hdisc rfl)

/-- C10, as the spec states it, fails in the list: a device without a name
shows "Unknown Device" there, not its mac; and an empty name is shown by
neither view. -/
theorem unnamed_device_counterexample :
    lookup "name" [("mac", JSON.str "AA:BB"), ("connected", JSON.bool false)] = none
    ∧ (deviceRow plainDecimal
          (.obj [("mac", .str "AA:BB"), ("connected", .bool false)])).map Row.name
        = .ok (some (.str "Unknown Device"))
    ∧ (deviceRow plainDecimal
          (.obj [("mac", .str "AA:BB"), ("connected", .bool false)])).map Row.name
        ≠ .ok (some (.str "AA:BB"))
    ∧ (deviceRow plainDecimal (.obj [("mac", .str "AA:BB"), ("name", .str "")])).map Row.name
        = .ok (some (.str "Unknown Device")) := by
  refine ⟨rfl, rfl, ?_, rfl⟩
  rw [show (deviceRow plainDecimal
      (.obj [("mac", .str "AA:BB"), ("connected", .bool false)])).map Row.name
    = .ok (some (.str "Unknown Device")) from rfl]
  simp

/-- C10, amended. For a device whose name is missing, null or empty, the chart
label is its mac and the list row shows "Unknown Device" (the mac has its own
line in the row); for a device whose name is a non-empty string, both views
show that name. This holds whatever text the engine prints for a number. -/
theorem displayed_name (numberToString : Int → Nat → String) (d : Device) :
    chartLabel d.toJSON
      = .ok (match d.name with
          | .present n => if n = "" then some (.str d.mac) else some (.str n)
          | _ => some (.str d.mac))
    ∧ (deviceRow numberToString d.toJSON).map Row.name
      = .ok (match d.name with
          | .present n => if n = "" then some (.str "Unknown Device") else some (.str n)
          | _ => some (.str "Unknown Device"))
    ∧ (deviceRow numberToString d.toJSON).map Row.mac = .ok (some (.str d.mac)) := by
  refine ⟨chartLabel_device d, ?_, ?_⟩
  · rw [deviceRow_device]; rfl
  · rw [deviceRow_device]; rfl

end BluetoothTracker
